import Mathlib

/-!
Verification development for the GitPlex profile manager.

The Lean definitions below are a shallow embedding of the Python sources:

* `src/gitplex/profile.py`   — `ProfileManager` (create / delete / activate /
  validate), the credential registry keyed by `email + "_" + username`;
* `src/gitplex/workspace.py` — workspace git-config generation,
  `update_global_gitconfig` (conditional-include stanza, exact-text dedup),
  `setup_workspace`, `backup_git_config`;
* `src/gitplex/system.py`    — `clean_existing_configs`, `backup_configs`;
* `src/gitplex/ssh.py`       — `SSHKeyManager.generate_key`, `validate_key`;
* `src/gitplex/ssh_manager.py` — `SSHManager.fix_key_permissions`.

File contents (strings), file modes (naturals) and interactive answers or
subprocess results (booleans / oracle functions passed as arguments) replace
the corresponding I/O.  Functions that the sources reference but that are
absent from the repository (`setup_ssh_keys`, `test_ssh_connection`,
`SSHKey.exists`) are modelled from the specification and marked as such.
-/

namespace GitPlex

/-! ## Basic string machinery

Python uses exact substring tests (`needle in haystack`) and `str.strip()`.
We model text as `String` and work on the underlying `List Char`.
-/

/-- Whitespace characters removed by Python `str.strip()`. -/
def isPySpace (c : Char) : Bool :=
  c == ' ' || c == '\t' || c == '\n' || c == '\r' || c == '\x0b' || c == '\x0c'

/-- Python `str.strip()` on a list of characters: drop whitespace from both
ends. -/
def pyStrip (l : List Char) : List Char :=
  ((l.dropWhile isPySpace).reverse.dropWhile isPySpace).reverse

/-- Python `str.strip()` on a `String`. -/
def pyStripStr (s : String) : String :=
  String.mk (pyStrip s.data)

/-- Python `needle in haystack` (substring test). -/
def substrOf (needle hay : String) : Prop :=
  needle.data <:+: hay.data

instance (needle hay : String) : Decidable (substrOf needle hay) :=
  List.decidableInfix needle.data hay.data

/-! ## Data model (profile.py, ssh.py)

`profile.py` stores an `SSHKey` with a private and a public key path, shared
`GitCredentials`, and `Profile` records keyed by name in a dict persisted as
`profiles.json`.
-/

/-- SSH key pair, by its two file paths (ssh.py `SSHKey`; only the fields the
profile manager reads). -/
structure SSHKey where
  private_key : String
  public_key : String
deriving DecidableEq, Repr

/-- Git credentials shared between profiles (profile.py `GitCredentials`).
The GPG key is kept as its key id. -/
structure GitCredentials where
  email : String
  username : String
  ssh_key : Option SSHKey
  gpg_key : Option String
deriving DecidableEq, Repr

/-- Git profile configuration (profile.py `Profile`). -/
structure Profile where
  name : String
  credentials : GitCredentials
  provider : String
  workspace_dir : String
  is_active : Bool
deriving DecidableEq, Repr

/-- Dict lookup: first entry whose key matches (Python `d.get(k)`). -/
def dictGet {α : Type} (d : List (String × α)) (k : String) : Option α :=
  (d.find? (fun kv => kv.1 == k)).map (fun kv => kv.2)

/-- Dict overwrite-insert (Python `d[k] = v`): the new binding shadows any
previous binding of the same key. -/
def dictInsert {α : Type} (k : String) (v : α) (d : List (String × α)) :
    List (String × α) :=
  (k, v) :: d.filter (fun kv => kv.1 != k)

/-- Lookup of `self.profiles[name]` / `name in self.profiles` on the profile
store. -/
def lookupProfile (store : List Profile) (name : String) : Option Profile :=
  store.find? (fun p => p.name == name)

/-- Dict assignment `self.profiles[name] = profile`: replace the entry of the
same name if present, otherwise append. -/
def insertProfile (p : Profile) (store : List Profile) : List Profile :=
  if (lookupProfile store p.name).isSome then
    store.map (fun q => if q.name == p.name then p else q)
  else
    store ++ [p]

/-! ## Errors (exceptions.py)

`GitplexError` carries a message and optional details; `ProfileError` extends
it with `profile_name` and `current_config`.  A Python `TypeError` is kept as
its own constructor because `profile.py` line 264 passes `gpg_key=` to
`workspace.setup_workspace`, which has no such parameter.
-/

/-- Payload a `ProfileError.current_config` would carry for a profile. -/
structure CurrentConfig where
  email : String
  username : String
  workspace_dir : String
  provider : String
deriving DecidableEq, Repr

/-- Errors raised by the embedded code (exceptions.py hierarchy plus Python
`TypeError`). -/
inductive PyError where
  | gitplex (message : String) (details : Option String)
  | profileErr (message : String) (profile_name : Option String)
      (current_config : Option CurrentConfig)
  | typeError (message : String)
deriving DecidableEq, Repr

/-- Does the error carry a `ProfileError`-style structured payload? -/
def PyError.isProfileConflict : PyError → Bool
  | .profileErr _ _ _ => true
  | _ => false

/-- The `current_config` attribute of the error, when present. -/
def PyError.currentConfig : PyError → Option CurrentConfig
  | .profileErr _ _ cc => cc
  | _ => none

/-! ## Credential registry (profile.py lines 102-105 and 121-124)

`_load_profiles` builds `self.credentials` as a dict comprehension keyed by
`f"{email}_{username}"`; `find_matching_credentials` is a plain dict get.
-/

/-- The registry key `f"{email}_{username}"`. -/
def credKey (email username : String) : String :=
  email ++ "_" ++ username

/-- The credentials index built by `_load_profiles` from the profile store
(later profiles overwrite earlier entries with the same key, as in a dict
comprehension). -/
def loadCredentials (store : List Profile) : List (String × GitCredentials) :=
  store.foldl
    (fun d p =>
      dictInsert (credKey p.credentials.email p.credentials.username)
        p.credentials d)
    []

/-- `ProfileManager.find_matching_credentials(email, username)`. -/
def findMatchingCredentials (creds : List (String × GitCredentials))
    (email username : String) : Option GitCredentials :=
  dictGet creds (credKey email username)

/-! ## Workspace git scoping (workspace.py) -/

/-- The per-workspace `.gitconfig` text written by `create_git_config`
(workspace.py lines 99-111).  Note the hard-coded `[github]` section and the
absence of any signing block. -/
def createGitConfigText (email username ssh_key : String) : String :=
  "[user]\n    email = " ++ email ++ "\n    name = " ++ username ++ "\n\n" ++
  "[github]\n    user = " ++ username ++ "\n\n" ++
  "[core]\n    " ++ "sshCommand = \"ssh -i " ++ ssh_key ++ "\"" ++ "\n\n" ++
  "[init]\n    defaultBranch = main" ++ "\n"

/-- The conditional-include stanza appended to the global `~/.gitconfig`
(workspace.py lines 136-139). -/
def includeConfig (workspace : String) : String :=
  "\n[includeIf \"gitdir:" ++ workspace ++ "/\"]\n    path = " ++
  workspace ++ "/.gitconfig\n"

/-- `update_global_gitconfig` (workspace.py lines 121-150) acting on the text
of the global config: append the stanza unless `include_config.strip()`
already occurs verbatim. -/
def updateGlobalGitconfig (workspace : String) (current : String) : String :=
  if (pyStripStr (includeConfig workspace)).data <:+: current.data then
    current
  else
    current ++ includeConfig workspace

/-- The files `workspace.py` touches: the global `~/.gitconfig` (`none` when
absent), the per-workspace `.gitconfig` files, and the gitconfig copies made
into `~/.gitplex/backups` by `backup_git_config`. -/
structure GitWorld where
  globalGitconfig : Option String
  workspaceConfigs : List (String × String)
  backups : List String
deriving DecidableEq, Repr

/-- `backup_git_config` (workspace.py lines 36-56): copy the global gitconfig
into a fresh timestamped backup file when one exists. -/
def backupGitConfig (w : GitWorld) : GitWorld :=
  match w.globalGitconfig with
  | some c => { w with backups := w.backups ++ [c] }
  | none => w

/-- `setup_workspace` (workspace.py lines 177-226): resolve
`base_dir / profile_name` (default base `~/Projects`), back up the global
config, write the workspace `.gitconfig` via `create_git_config`, and update
the global config idempotently.  The `provider` argument is accepted but the
written file always uses the `[github]` section; there is no `gpg_key`
parameter in the source. -/
def setupWorkspace (profile_name email username provider ssh_key : String)
    (base_dir : Option String) (w : GitWorld) : String × GitWorld :=
  let _ := provider
  let base := base_dir.getD "~/Projects"
  let workspace_dir := base ++ "/" ++ profile_name
  let w1 := backupGitConfig w
  let text := createGitConfigText email username ssh_key
  let w2 := { w1 with
    workspaceConfigs := dictInsert workspace_dir text w1.workspaceConfigs }
  let g := w2.globalGitconfig.getD ""
  let w3 := { w2 with
    globalGitconfig := some (updateGlobalGitconfig workspace_dir g) }
  (workspace_dir, w3)

/-- On-disk workspace git configuration as read back by
`get_workspace_git_config` (workspace.py lines 229-253): the four values the
function returns.  Reading goes through the external git library, so the
reader is passed as an oracle returning either these values or an error. -/
structure WorkspaceGitCfg where
  userName : String
  userEmail : String
  githubUser : String
  coreSshCommand : String
deriving DecidableEq, Repr

/-! ## Profile manager operations (profile.py) -/

/-- Interactive answers and external results consumed by `create_profile`.
`newKey` stands for the result of `setup_ssh_keys` and `sshOk` for
`test_ssh_connection`; both functions are referenced by `profile.py` but are
absent from the repository, so they are modelled from the specification
(section 4.4 collaborator interfaces). -/
structure CreateEnv where
  confirmOverwrite : Bool
  confirmReuse : Bool
  providerKeyOnDisk : Option SSHKey
  sshOk : Bool
  confirmNewKeyInsteadOfExisting : Bool
  newKey : SSHKey
  gpgKey : Option String
deriving DecidableEq, Repr

/-- In-memory state of a `ProfileManager`: the profile dict and the
credentials index. -/
structure ManagerState where
  profiles : List Profile
  credentials : List (String × GitCredentials)
deriving DecidableEq, Repr

/-- SSH key resolution inside `create_profile` (profile.py lines 168-243):
reuse an existing `~/.ssh/id_<provider>` key, optionally replacing it with a
new one when the connection test fails, otherwise generate a new key.  Key
generation itself (`setup_ssh_keys`) is modelled from the spec via
`env.newKey`. -/
def resolveSSHKey (env : CreateEnv) : SSHKey :=
  match env.providerKeyOnDisk with
  | some k =>
      if env.sshOk then k
      else if env.confirmNewKeyInsteadOfExisting then env.newKey
      else k
  | none => env.newKey

/-- `ProfileManager.create_profile` (profile.py lines 126-298).  Returns the
resulting manager state together with the produced profile or the raised
error.  The conflict check (lines 152-157) asks for confirmation and raises a
plain `GitplexError` carrying no structured payload when declined.  Every
call that reaches the workspace step raises `TypeError`, because the call at
lines 264-272 passes `gpg_key=` to `workspace.setup_workspace`, which has no
such parameter. -/
def createProfile (st : ManagerState) (name email username provider : String)
    (base_dir : Option String) (force reuse_credentials skip_gpg : Bool)
    (env : CreateEnv) : ManagerState × Except PyError Profile :=
  let _ := base_dir
  let _ := provider
  if (lookupProfile st.profiles name).isSome && !force &&
      !env.confirmOverwrite then
    (st, .error (.gitplex ("Profile " ++ name ++ " already exists") none))
  else
    let credsOpt : Option GitCredentials :=
      if reuse_credentials then
        match findMatchingCredentials st.credentials email username with
        | some c => if env.confirmReuse then some c else none
        | none => none
      else none
    let st1 : ManagerState :=
      match credsOpt with
      | some _ => st
      | none =>
          let ssh := resolveSSHKey env
          let gpg := if skip_gpg then none else env.gpgKey
          let c : GitCredentials :=
            { email := email, username := username,
              ssh_key := some ssh, gpg_key := gpg }
          { st with
            credentials := dictInsert (credKey email username) c
              st.credentials }
    (st1,
      .error (.typeError
        "setup_workspace got an unexpected keyword argument gpg_key"))

/-- True when some profile other than `name` holds the same
`(email, username)` pair as `cred` — the scan `delete_profile` performs over
the whole store (profile.py lines 331-336). -/
def sharedByOther (store : List Profile) (name : String)
    (cred : GitCredentials) : Bool :=
  store.any (fun p =>
    p.credentials.email == cred.email &&
    p.credentials.username == cred.username &&
    p.name != name)

/-- Observable effects of `delete_profile`. -/
structure DeleteEffects where
  store : List Profile
  removedSSHKey : Option SSHKey
  removedCredKey : Option String
  workspaceRemoved : Bool
deriving DecidableEq, Repr

/-- `ProfileManager.delete_profile` (profile.py lines 310-364).  SSH key
files are unlinked only when `keep_files` is false, the profile has a key,
`keep_credentials` is false, and no other profile shares the
`(email, username)` pair; the workspace is removed only after an interactive
confirmation inside the same branch. -/
def deleteProfile (store : List Profile) (name : String)
    (keep_files keep_credentials confirmRemoveWorkspace : Bool) :
    Except PyError DeleteEffects :=
  match lookupProfile store name with
  | none => .error (.gitplex ("Profile not found: " ++ name) none)
  | some profile =>
      let doRemoveKeys := !keep_files && profile.credentials.ssh_key.isSome &&
        !keep_credentials && !(sharedByOther store name profile.credentials)
      .ok {
        store := store.filter (fun p => p.name != name),
        removedSSHKey :=
          if doRemoveKeys then profile.credentials.ssh_key else none,
        removedCredKey :=
          if doRemoveKeys then
            some (credKey profile.credentials.email
              profile.credentials.username)
          else none,
        workspaceRemoved := !keep_files &&
          profile.credentials.ssh_key.isSome && confirmRemoveWorkspace }

/-- Outcome of `activate_profile`: the in-memory store, the persisted store
(`profiles.json`), and the raised error when any. -/
structure ActivateOutcome where
  memory : List Profile
  disk : List Profile
  err : Option PyError
deriving DecidableEq, Repr

/-- `ProfileManager.activate_profile` (profile.py lines 366-394): reassign
every `is_active` flag in memory, then validate the workspace
(`validate_workspace`, passed as the oracle `wsValid`); only on success is
`_save_profiles` reached, which rewrites `profiles.json`.  The SSH
connection test only prints a warning and does not affect control flow. -/
def activateProfile (memory disk : List Profile) (wsValid : String → Bool)
    (name : String) : ActivateOutcome :=
  match lookupProfile memory name with
  | none =>
      { memory := memory, disk := disk,
        err := some (.gitplex ("Profile not found: " ++ name) none) }
  | some profile =>
      let mem1 := memory.map (fun p => { p with is_active := p.name == name })
      if wsValid profile.workspace_dir then
        { memory := mem1, disk := mem1, err := none }
      else
        { memory := mem1, disk := disk,
          err := some (.gitplex
            ("Invalid workspace directory: " ++ profile.workspace_dir) none) }

/-- `ProfileManager.validate_profile` (profile.py lines 407-445).  The result
is `none` when the Python code raises (`ssh_key` is `None`, so
`.exists()` is an `AttributeError`).  `keyExistsOnDisk` models
`SSHKey.exists`, which is absent from the repository: modelled from the
specification (section 3: both key files exist).  `wsValid` models
`validate_workspace` and `readCfg` models `get_workspace_git_config`. -/
def validateProfile (store : List Profile) (keyExistsOnDisk : SSHKey → Bool)
    (wsValid : String → Bool)
    (readCfg : String → Except PyError WorkspaceGitCfg) (name : String) :
    Option Bool :=
  match lookupProfile store name with
  | none => some false
  | some profile =>
      match profile.credentials.ssh_key with
      | none => none
      | some key =>
          if !(keyExistsOnDisk key) then some false
          else if !(wsValid profile.workspace_dir) then some false
          else
            match readCfg profile.workspace_dir with
            | .error _ => some false
            | .ok cfg =>
                if cfg.userEmail != profile.credentials.email ||
                    cfg.userName != profile.credentials.username ||
                    cfg.githubUser != profile.credentials.username then
                  some false
                else some true

/-! ## Store mutations reachable through the manager (for the at-most-one
active invariant)

The three mutations `ProfileManager` performs on `self.profiles` are the dict
assignment at line 283 (new profiles are built with `is_active = False`), the
`del` at line 361, and the flag reassignment at lines 376-381.
-/

/-- One store mutation performed by the profile manager. -/
inductive MgrOp where
  | createOp (name : String) (creds : GitCredentials) (provider : String)
      (workspace_dir : String)
  | deleteOp (name : String)
  | activateOp (name : String)

/-- Apply one manager mutation to the in-memory store.  `activateOp` performs
the flag reassignment even when workspace validation later fails, exactly as
the source does; a missing name raises before any mutation. -/
def applyMgrOp (store : List Profile) : MgrOp → List Profile
  | .createOp name creds provider workspace_dir =>
      insertProfile
        { name := name, credentials := creds, provider := provider,
          workspace_dir := workspace_dir, is_active := false } store
  | .deleteOp name => store.filter (fun p => p.name != name)
  | .activateOp name =>
      if (lookupProfile store name).isSome then
        store.map (fun p => { p with is_active := p.name == name })
      else store

/-- Number of active profiles in a store. -/
def countActive (store : List Profile) : Nat :=
  (store.filter (fun p => p.is_active)).length

/-! ## System cleanup (system.py) -/

/-- The parts of the machine `clean_existing_configs` and `backup_configs`
touch: the global gitconfig content, the `~/.ssh` directory (its config, a
`.bak` sibling, and the `id_*` key pairs by name), the GPG secret keys (key
id paired with whether their listing line mentions `gitplex`), and the
`~/.gitplex` directory with the gitconfig copies stored in its `backups`
subdirectory (each backup directory records the gitconfig copy it contains,
`none` when the gitconfig was absent at backup time). -/
structure SystemState where
  gitconfig : Option String
  sshDirExists : Bool
  sshConfig : Option String
  sshConfigBak : Option String
  sshKeys : List String
  gpgSecretKeys : List (String × Bool)
  gitplexDirExists : Bool
  backups : List (Option String)
deriving DecidableEq, Repr

/-- `backup_configs` (system.py lines 220-265): create a timestamped backup
directory under `~/.gitplex/backups` and copy the gitconfig into it when one
exists.  (The SSH parts of the snapshot are not needed by the claims and are
omitted.) -/
def backupConfigs (s : SystemState) : SystemState :=
  { s with gitplexDirExists := true, backups := s.backups ++ [s.gitconfig] }

/-- `clean_existing_configs` (system.py lines 455-566): unlink the global
gitconfig; inside `~/.ssh`, copy the SSH config to a `.bak` sibling and
delete it, then delete every `id_*` key pair; delete the GPG secret keys
whose listing line mentions `gitplex`; finally `shutil.rmtree` the whole
`~/.gitplex` directory — including its `backups` subdirectory.  The function
takes no parameters (no skip flag) and never writes into the backups
directory. -/
def cleanExistingConfigs (s : SystemState) : SystemState :=
  let s1 := { s with gitconfig := none }
  let s2 :=
    if s1.sshDirExists then
      let s2a :=
        match s1.sshConfig with
        | some c => { s1 with sshConfigBak := some c, sshConfig := none }
        | none => s1
      { s2a with sshKeys := [] }
    else s1
  let s3 := { s2 with
    gpgSecretKeys := s2.gpgSecretKeys.filter (fun kv => !kv.2) }
  if s3.gitplexDirExists then
    { s3 with gitplexDirExists := false, backups := [] }
  else s3

/-! ## SSH key lifecycle (ssh.py, ssh_manager.py) -/

/-- Supported key types (ssh.py `KeyType`). -/
inductive KeyType where
  | ed25519
  | rsa
deriving DecidableEq, Repr

/-- File-system view of one key pair: existence and permission bits of the
private and the public key file. -/
structure KeyPairFS where
  privExists : Bool
  privMode : Nat
  pubExists : Bool
  pubMode : Nat
deriving DecidableEq, Repr

/-- `chmod` on the private key file. -/
def chmodPriv (m : Nat) (fs : KeyPairFS) : KeyPairFS :=
  { fs with privMode := m }

/-- `chmod` on the public key file. -/
def chmodPub (m : Nat) (fs : KeyPairFS) : KeyPairFS :=
  { fs with pubMode := m }

/-- Successful generation path of `SSHKeyManager.generate_key`
(ssh.py lines 278-308): `ssh-keygen` creates both files with
umask-determined modes (`umaskPriv` / `umaskPub`), then the code sets the
private key to `0o600` and the public key to `0o644`.  The key type only
changes the generation command (RSA adds a bit count), not the chmods. -/
def generateKeyFS (kt : KeyType) (umaskPriv umaskPub : Nat) : KeyPairFS :=
  let _ := kt
  chmodPub 0o644 (chmodPriv 0o600
    { privExists := true, privMode := umaskPriv,
      pubExists := true, pubMode := umaskPub })

/-- `SSHKeyManager.validate_key` (ssh.py lines 150-185): returns early when a
file is missing; otherwise fixes any wrong mode before the content and
`ssh-keygen -l` checks, whose combined result is the oracle `contentOk`. -/
def validateKeyFS (fs : KeyPairFS) (contentOk : Bool) : KeyPairFS × Bool :=
  if !fs.privExists || !fs.pubExists then (fs, false)
  else
    let fs1 := if fs.privMode != 0o600 then chmodPriv 0o600 fs else fs
    let fs2 := if fs1.pubMode != 0o644 then chmodPub 0o644 fs1 else fs1
    (fs2, contentOk)

/-- `SSHManager.fix_key_permissions` (ssh_manager.py lines 164-180): chmod
the private key to `0o600` and the public key to `0o644`; a missing file
makes the corresponding `chmod` raise, which the function reports as
failure. -/
def fixKeyPermissionsFS (fs : KeyPairFS) : KeyPairFS × Bool :=
  if !fs.privExists then (fs, false)
  else
    let fs1 := chmodPriv 0o600 fs
    if !fs1.pubExists then (fs1, false)
    else (chmodPub 0o644 fs1, true)

/-! ## Concrete states used by counterexamples and witnesses -/

/-- An SSH key pair under `~/.ssh/id_github`. -/
def exKey : SSHKey :=
  { private_key := "~/.ssh/id_github", public_key := "~/.ssh/id_github.pub" }

/-- Credentials used by the example profiles. -/
def exCreds : GitCredentials :=
  { email := "a@b", username := "u", ssh_key := some exKey, gpg_key := none }

/-- A stored profile named `A`. -/
def exProfileA : Profile :=
  { name := "A", credentials := exCreds, provider := "github",
    workspace_dir := "/ws/A", is_active := false }

/-- An SSH key pair under `~/.ssh/id_gitlab`. -/
def exKeyB : SSHKey :=
  { private_key := "~/.ssh/id_gitlab", public_key := "~/.ssh/id_gitlab.pub" }

/-- Credentials of the second example profile. -/
def exCredsB : GitCredentials :=
  { email := "c@d", username := "v", ssh_key := some exKeyB, gpg_key := none }

/-- A second stored profile named `B` with its own credentials. -/
def exProfileB : Profile :=
  { name := "B", credentials := exCredsB, provider := "gitlab",
    workspace_dir := "/ws/B", is_active := false }

/-- Credentials whose email itself contains an underscore, colliding in the
credential registry with the pair `("a", "b_c")`. -/
def exCredsUnderscore : GitCredentials :=
  { email := "a_b", username := "c", ssh_key := none, gpg_key := none }

/-- The profile carrying `exCredsUnderscore`. -/
def exProfileUnderscore : Profile :=
  { name := "p", credentials := exCredsUnderscore, provider := "github",
    workspace_dir := "/ws/p", is_active := false }

/-- A create-profile environment that declines every prompt. -/
def exEnvDecline : CreateEnv :=
  { confirmOverwrite := false, confirmReuse := false,
    providerKeyOnDisk := none, sshOk := false,
    confirmNewKeyInsteadOfExisting := false, newKey := exKey, gpgKey := none }

/-- A system state with a non-empty global gitconfig, an SSH setup and a
GitPlex data directory, but no backups. -/
def exSystem : SystemState :=
  { gitconfig := some "[user]\n    email = a@b\n",
    sshDirExists := true, sshConfig := some "Host github.com\n",
    sshConfigBak := none, sshKeys := ["id_github"],
    gpgSecretKeys := [("AAAA1111", true), ("BBBB2222", false)],
    gitplexDirExists := true, backups := [] }

/-- An empty git world: no global config, no workspace configs, no backups. -/
def exWorld : GitWorld :=
  { globalGitconfig := none, workspaceConfigs := [], backups := [] }

/-- Manager state holding only profile `A`. -/
def exStateA : ManagerState :=
  { profiles := [exProfileA], credentials := loadCredentials [exProfileA] }

/-- Manager state holding profiles `A` and `B`. -/
def exStateAB : ManagerState :=
  { profiles := [exProfileA, exProfileB],
    credentials := loadCredentials [exProfileA, exProfileB] }

/-- A workspace config whose `user.email` and `user.name` match profile `A`
but whose `github.user` has drifted. -/
def exCfgDrift : WorkspaceGitCfg :=
  { userName := "u", userEmail := "a@b", githubUser := "other",
    coreSshCommand := "ssh -i ~/.ssh/id_github" }

/-- A workspace config fully matching profile `A`. -/
def exCfgGood : WorkspaceGitCfg :=
  { userName := "u", userEmail := "a@b", githubUser := "u",
    coreSshCommand := "ssh -i ~/.ssh/id_github" }

/-- A key pair left world-readable by some earlier tool. -/
def exLooseKeyFS : KeyPairFS :=
  { privExists := true, privMode := 0o777, pubExists := true,
    pubMode := 0o777 }

/-- Oracle: every workspace directory validates. -/
def wsAlwaysValid : String → Bool := fun _ => true

/-- Oracle: no workspace directory validates. -/
def wsNeverValid : String → Bool := fun _ => false

/-- Oracle: every SSH key file exists on disk. -/
def keyAlwaysOnDisk : SSHKey → Bool := fun _ => true

/-- Oracle: reading any workspace config yields the drifted config. -/
def readCfgDrift : String → Except PyError WorkspaceGitCfg :=
  fun _ => .ok exCfgDrift

/-- Oracle: reading any workspace config yields the matching config. -/
def readCfgGood : String → Except PyError WorkspaceGitCfg :=
  fun _ => .ok exCfgGood

/-! ## Helper lemmas -/

/-- A Python-stripped list is an infix of the original list. -/
theorem pyStrip_infix (l : List Char) : pyStrip l <:+: l := by
  unfold pyStrip
  have h1 : l.dropWhile isPySpace <:+ l := List.dropWhile_suffix _
  have h2 : (l.dropWhile isPySpace).reverse.dropWhile isPySpace <:+
      (l.dropWhile isPySpace).reverse := List.dropWhile_suffix _
  have h3 : ((l.dropWhile isPySpace).reverse.dropWhile isPySpace).reverse <+:
      l.dropWhile isPySpace := by
    simpa using List.reverse_prefix.mpr h2
  exact h3.isInfix.trans h1.isInfix

/-- The stripped stanza occurs in any text that ends with the stanza. -/
theorem pyStrip_infix_append (s c : String) :
    (pyStripStr s).data <:+: (c ++ s).data := by
  have h1 : pyStrip s.data <:+: s.data := pyStrip_infix s.data
  have h2 : s.data <:+ (c ++ s).data := by
    rw [String.data_append]
    exact List.suffix_append _ _
  exact h1.trans h2.isInfix

/-- After `update_global_gitconfig` runs, the stripped stanza is present. -/
theorem stanza_present_after_update (workspace g : String) :
    (pyStripStr (includeConfig workspace)).data <:+:
      (updateGlobalGitconfig workspace g).data := by
  unfold updateGlobalGitconfig
  by_cases h : (pyStripStr (includeConfig workspace)).data <:+: g.data
  · rwa [if_pos h]
  · rw [if_neg h]
    exact pyStrip_infix_append _ _

/-- `update_global_gitconfig` is idempotent: a second run with the same
workspace appends nothing. -/
theorem updateGlobalGitconfig_idem (workspace g : String) :
    updateGlobalGitconfig workspace (updateGlobalGitconfig workspace g) =
      updateGlobalGitconfig workspace g := by
  conv in updateGlobalGitconfig workspace (updateGlobalGitconfig _ _) =>
    rw [updateGlobalGitconfig]
  rw [if_pos (stanza_present_after_update workspace g)]

/-- `backup_git_config` does not touch the global config text. -/
theorem backupGitConfig_global (w : GitWorld) :
    (backupGitConfig w).globalGitconfig = w.globalGitconfig := by
  obtain ⟨g, ws, b⟩ := w
  cases g <;> rfl

/-- The directory returned by `setup_workspace`. -/
theorem setupWorkspace_dir (pn em un pv sk : String) (bd : Option String)
    (w : GitWorld) :
    (setupWorkspace pn em un pv sk bd w).1 =
      (bd.getD "~/Projects") ++ "/" ++ pn := rfl

/-- The global config after `setup_workspace`. -/
theorem setupWorkspace_global (pn em un pv sk : String) (bd : Option String)
    (w : GitWorld) :
    (setupWorkspace pn em un pv sk bd w).2.globalGitconfig =
      some (updateGlobalGitconfig ((bd.getD "~/Projects") ++ "/" ++ pn)
        (w.globalGitconfig.getD "")) := by
  unfold setupWorkspace
  simp [backupGitConfig_global]

/-- The workspace config written by `setup_workspace`. -/
theorem setupWorkspace_workspaceConfig (pn em un pv sk : String)
    (bd : Option String) (w : GitWorld) :
    dictGet (setupWorkspace pn em un pv sk bd w).2.workspaceConfigs
        (setupWorkspace pn em un pv sk bd w).1 =
      some (createGitConfigText em un sk) := by
  unfold setupWorkspace
  simp [dictGet, dictInsert, List.find?]

/-! ## C4 — idempotence of workspace scoping -/

/-- Claim C4: calling `setup_workspace` twice with identical arguments leaves
the global gitconfig of the second call identical to the first (the second
call appends nothing, because the exact stanza text is already present
verbatim); after the first call the stripped stanza occurs in the global
config; and when the stanza was not present initially, exactly one copy of
the stanza is appended. -/
theorem setup_workspace_idempotent_stanza (pn em un pv sk : String)
    (bd : Option String) (w : GitWorld) :
    (setupWorkspace pn em un pv sk bd
        (setupWorkspace pn em un pv sk bd w).2).2.globalGitconfig =
      (setupWorkspace pn em un pv sk bd w).2.globalGitconfig ∧
    substrOf
      (pyStripStr (includeConfig (setupWorkspace pn em un pv sk bd w).1))
      (((setupWorkspace pn em un pv sk bd w).2.globalGitconfig).getD "") ∧
    (¬ substrOf
        (pyStripStr (includeConfig (setupWorkspace pn em un pv sk bd w).1))
        (w.globalGitconfig.getD "") →
      (setupWorkspace pn em un pv sk bd w).2.globalGitconfig =
        some ((w.globalGitconfig.getD "") ++
          includeConfig (setupWorkspace pn em un pv sk bd w).1)) := by
  refine ⟨?_, ?_, ?_⟩
  · rw [setupWorkspace_global, setupWorkspace_global]
    simp [updateGlobalGitconfig_idem]
  · rw [setupWorkspace_global, setupWorkspace_dir]
    simpa [substrOf] using
      stanza_present_after_update ((bd.getD "~/Projects") ++ "/" ++ pn)
        (w.globalGitconfig.getD "")
  · intro h
    rw [setupWorkspace_global, setupWorkspace_dir]
    rw [setupWorkspace_dir] at h
    simp only [substrOf] at h
    unfold updateGlobalGitconfig
    rw [if_neg h]

/-- Witness for C4 at a concrete input: a fresh global config receives the
stanza once, and the second call changes nothing. -/
theorem setup_workspace_idempotent_stanza_witness :
    (setupWorkspace "work" "w@co.com" "wuser" "github" "/k" (some "/tmp/ws")
        (setupWorkspace "work" "w@co.com" "wuser" "github" "/k"
          (some "/tmp/ws") exWorld).2).2.globalGitconfig =
      (setupWorkspace "work" "w@co.com" "wuser" "github" "/k" (some "/tmp/ws")
        exWorld).2.globalGitconfig ∧
    (setupWorkspace "work" "w@co.com" "wuser" "github" "/k" (some "/tmp/ws")
        exWorld).2.globalGitconfig =
      some ((exWorld.globalGitconfig.getD "") ++
        includeConfig (setupWorkspace "work" "w@co.com" "wuser" "github" "/k"
          (some "/tmp/ws") exWorld).1) := by
  refine ⟨(setup_workspace_idempotent_stanza "work" "w@co.com" "wuser"
    "github" "/k" (some "/tmp/ws") exWorld).1, ?_⟩
  exact (setup_workspace_idempotent_stanza "work" "w@co.com" "wuser" "github"
    "/k" (some "/tmp/ws") exWorld).2.2 (by decide)

/-! ## C8 — what `setup_workspace` actually writes -/

set_option maxRecDepth 100000 in
/-- Counterexample to claim C8: `setup_workspace` called for provider
`gitlab` returns `base_dir / profile_name` but writes a config whose
provider section is the hard-coded `[github]` one; no `[gitlab]` block and
no `[commit]`/`[tag]`/`[gpg]` signing block is ever written (the function
has no `gpg_key` parameter at all). -/
theorem setup_workspace_gitlab_cex :
    (setupWorkspace "p" "e@x" "u" "gitlab" "/k" (some "/b") exWorld).1 =
      "/b/p" ∧
    dictGet (setupWorkspace "p" "e@x" "u" "gitlab" "/k" (some "/b")
        exWorld).2.workspaceConfigs "/b/p" =
      some (createGitConfigText "e@x" "u" "/k") ∧
    ¬ substrOf "[gitlab]" (createGitConfigText "e@x" "u" "/k") ∧
    substrOf "[github]" (createGitConfigText "e@x" "u" "/k") ∧
    ¬ substrOf "[commit]" (createGitConfigText "e@x" "u" "/k") ∧
    ¬ substrOf "[tag]" (createGitConfigText "e@x" "u" "/k") ∧
    ¬ substrOf "[gpg]" (createGitConfigText "e@x" "u" "/k") := by
  refine ⟨rfl, ?_, by decide, by decide, by decide, by decide, by decide⟩
  exact setupWorkspace_workspaceConfig "p" "e@x" "u" "gitlab" "/k"
    (some "/b") exWorld

/-- Claim C8 as amended: for every call, `setup_workspace` returns
`base_dir / profile_name` (default base `~/Projects`) and writes a workspace
`.gitconfig` containing the `[user]` block with the given email and name, a
hard-coded `[github]` block with `user = <username>` regardless of the
`provider` argument, a `[core] sshCommand` referencing the SSH private key,
and `[init] defaultBranch = main`; the source accepts no `gpg_key` argument
and never writes a signing block. -/
theorem setup_workspace_written_config (pn em un pv sk : String)
    (bd : Option String) (w : GitWorld) :
    (setupWorkspace pn em un pv sk bd w).1 =
      (bd.getD "~/Projects") ++ "/" ++ pn ∧
    dictGet (setupWorkspace pn em un pv sk bd w).2.workspaceConfigs
        (setupWorkspace pn em un pv sk bd w).1 =
      some (createGitConfigText em un sk) ∧
    substrOf ("[user]\n    email = " ++ em ++ "\n    name = " ++ un)
      (createGitConfigText em un sk) ∧
    substrOf ("[github]\n    user = " ++ un)
      (createGitConfigText em un sk) ∧
    substrOf ("sshCommand = \"ssh -i " ++ sk ++ "\"")
      (createGitConfigText em un sk) ∧
    substrOf "[init]\n    defaultBranch = main"
      (createGitConfigText em un sk) := by
  refine ⟨setupWorkspace_dir pn em un pv sk bd w,
    setupWorkspace_workspaceConfig pn em un pv sk bd w, ?_, ?_, ?_, ?_⟩
  · refine ⟨[], ("\n\n" ++ "[github]\n    user = " ++ un ++ "\n\n" ++
      "[core]\n    " ++ "sshCommand = \"ssh -i " ++ sk ++ "\"" ++ "\n\n" ++
      "[init]\n    defaultBranch = main" ++ "\n").data, ?_⟩
    simp [createGitConfigText, String.data_append, List.append_assoc]
  · refine ⟨("[user]\n    email = " ++ em ++ "\n    name = " ++ un ++
      "\n\n").data, ("\n\n" ++ "[core]\n    " ++
      "sshCommand = \"ssh -i " ++ sk ++ "\"" ++ "\n\n" ++
      "[init]\n    defaultBranch = main" ++ "\n").data, ?_⟩
    simp [createGitConfigText, String.data_append, List.append_assoc]
  · refine ⟨("[user]\n    email = " ++ em ++ "\n    name = " ++ un ++
      "\n\n" ++ "[github]\n    user = " ++ un ++ "\n\n" ++
      "[core]\n    ").data, ("\n\n" ++ "[init]\n    defaultBranch = main" ++
      "\n").data, ?_⟩
    simp [createGitConfigText, String.data_append, List.append_assoc]
  · refine ⟨("[user]\n    email = " ++ em ++ "\n    name = " ++ un ++
      "\n\n" ++ "[github]\n    user = " ++ un ++ "\n\n" ++
      "[core]\n    " ++ "sshCommand = \"ssh -i " ++ sk ++ "\"" ++
      "\n\n").data, ("\n" : String).data, ?_⟩
    simp [createGitConfigText, String.data_append, List.append_assoc]

/-! ## C2 — SSH key removal on profile deletion -/

/-- Counterexample to claim C2: with the last profile referencing its
credentials, `delete_profile(name, keep_files=False)` (with
`keep_credentials` at its default `True`) does NOT unlink the SSH key files,
because the removal branch additionally requires `keep_credentials` to be
false. -/
theorem delete_profile_last_profile_cex :
    deleteProfile [exProfileA] "A" false true false =
      .ok { store := [], removedSSHKey := none, removedCredKey := none,
            workspaceRemoved := false } ∧
    sharedByOther [exProfileA] "A" exCreds = false ∧
    exProfileA.credentials.ssh_key = some exKey := by
  refine ⟨rfl, by decide, by decide⟩

/-- Claim C2 as amended: with `keep_files = false` AND
`keep_credentials = false`, `delete_profile` unlinks the SSH key files
exactly when no surviving profile shares the deleted profile's
`(email, username)` pair, the decision being made by scanning the full
profile store; the profile entry itself is always removed. -/
theorem delete_profile_removes_keys_iff_unshared (store : List Profile)
    (name : String) (p : Profile) (c : Bool) (k : SSHKey)
    (h : lookupProfile store name = some p)
    (hk : p.credentials.ssh_key = some k) :
    deleteProfile store name false false c =
      .ok { store := store.filter (fun q => q.name != name),
            removedSSHKey :=
              if sharedByOther store name p.credentials then none
              else some k,
            removedCredKey :=
              if sharedByOther store name p.credentials then none
              else some (credKey p.credentials.email
                p.credentials.username),
            workspaceRemoved := c } := by
  unfold deleteProfile
  rw [h]
  by_cases hs : sharedByOther store name p.credentials = true <;>
    simp [hs, hk]

/-- Witness for C2 at a concrete input: deleting `A` while only `B` (with
different credentials) survives removes the key files and the registry
entry. -/
theorem delete_profile_removes_keys_iff_unshared_witness :
    deleteProfile [exProfileA, exProfileB] "A" false false false =
      .ok { store := [exProfileB], removedSSHKey := some exKey,
            removedCredKey := some "a@b_u", workspaceRemoved := false } := by
  refine (delete_profile_removes_keys_iff_unshared [exProfileA, exProfileB]
    "A" exProfileA false exKey (by decide) (by decide)).trans
    (congrArg Except.ok (by decide))

/-! ## C3 — conflict on an existing profile name -/

/-- Counterexample to claim C3: with profile `A` stored, a second
`create_profile("A", ..., force=False)` whose overwrite confirmation is
declined raises the plain `GitplexError "Profile A already exists"`, which
is not a `ProfileError` and carries no `current_config` payload at all. -/
theorem create_profile_conflict_payload_cex :
    createProfile exStateA "A" "x@y" "w" "github" none false true false
        exEnvDecline =
      (exStateA, .error (.gitplex "Profile A already exists" none)) ∧
    PyError.isProfileConflict (.gitplex "Profile A already exists" none) =
      false ∧
    PyError.currentConfig (.gitplex "Profile A already exists" none) =
      none := by
  refine ⟨rfl, rfl, rfl⟩

/-- Claim C3 as amended: when the name is taken, `force` is false and the
interactive overwrite confirmation is declined, `create_profile` raises the
plain `GitplexError` message `"Profile <name> already exists"` — carrying
neither the profile name nor the existing configuration as structured data —
and returns with the manager state unmodified. -/
theorem create_profile_conflict_plain_error (st : ManagerState)
    (name email username provider : String) (bd : Option String)
    (rc sg : Bool) (env : CreateEnv)
    (h : (lookupProfile st.profiles name).isSome = true)
    (hc : env.confirmOverwrite = false) :
    createProfile st name email username provider bd false rc sg env =
      (st, .error (.gitplex ("Profile " ++ name ++ " already exists")
        none)) := by
  unfold createProfile
  rw [if_pos]
  simp [h, hc]

/-- Witness for C3 at a concrete input. -/
theorem create_profile_conflict_plain_error_witness :
    createProfile exStateAB "B" "x@y" "w" "gitlab" none false true false
        exEnvDecline =
      (exStateAB, .error (.gitplex "Profile B already exists" none)) := by
  exact create_profile_conflict_plain_error exStateAB "B" "x@y" "w" "gitlab"
    none true false exEnvDecline (by decide) (by decide)

/-! ## C9 — the credential registry key is not injective -/

/-- Claim C9: the registry key `email ++ "_" ++ username` identifies the
pairs `("a_b", "c")` and `("a", "b_c")`, which are distinct; consequently a
store holding credentials for `("a_b", "c")` answers a
`find_matching_credentials("a", "b_c")` query with a credential whose email
and username differ from the query arguments. -/
theorem cred_key_not_injective :
    credKey "a_b" "c" = credKey "a" "b_c" ∧
    ¬ (("a_b" : String) = "a" ∧ ("c" : String) = "b_c") ∧
    findMatchingCredentials (loadCredentials [exProfileUnderscore])
        "a" "b_c" = some exCredsUnderscore ∧
    exCredsUnderscore.email ≠ "a" ∧
    exCredsUnderscore.username ≠ "b_c" := by
  decide

/-! ## C6 — at most one active profile -/

/-- `countActive` as a `countP`. -/
theorem countActive_eq_countP (store : List Profile) :
    countActive store = store.countP (fun p => p.is_active) := by
  simp [countActive, List.countP_eq_length_filter]

/-- In a store with pairwise distinct names, at most one profile matches a
given name. -/
theorem countP_name_le_one (store : List Profile) (name : String)
    (hn : (store.map (fun p => p.name)).Nodup) :
    store.countP (fun p => p.name == name) ≤ 1 := by
  induction store with
  | nil => simp
  | cons q rest ih =>
      rw [List.map_cons, List.nodup_cons] at hn
      obtain ⟨hq, hrest⟩ := hn
      rw [List.countP_cons]
      by_cases h : (q.name == name) = true
      · have hqname : q.name = name := eq_of_beq h
        have hzero : rest.countP (fun r => r.name == name) = 0 := by
          rw [List.countP_eq_zero]
          intro r hr hb
          exact hq (by
            rw [hqname, ← eq_of_beq hb]
            exact List.mem_map_of_mem _ hr)
        simp [h, hzero]
      · simp only [h, if_false, Nat.add_zero]
        exact ih hrest

/-- A manager store mutation preserves distinctness of names and the bound
of at most one active profile. -/
theorem applyMgrOp_inv (store : List Profile) (op : MgrOp)
    (hn : (store.map (fun p => p.name)).Nodup)
    (hc : countActive store ≤ 1) :
    ((applyMgrOp store op).map (fun p => p.name)).Nodup ∧
      countActive (applyMgrOp store op) ≤ 1 := by
  cases op with
  | createOp name creds provider wdir =>
      show (((insertProfile _ store).map (fun p => p.name)).Nodup ∧
        countActive (insertProfile _ store) ≤ 1)
      unfold insertProfile
      by_cases hl : (lookupProfile store name).isSome
      · rw [if_pos hl]
        constructor
        · rw [List.map_map]
          have : store.map ((fun p => p.name) ∘ fun q =>
              if q.name == name then
                { name := name, credentials := creds, provider := provider,
                  workspace_dir := wdir, is_active := false }
              else q) = store.map (fun p => p.name) := by
            refine List.map_congr_left ?_
            intro q _
            by_cases hq : (q.name == name) = true
            · simp [Function.comp, hq, eq_of_beq hq]
            · simp [Function.comp, hq]
          rw [this]
          exact hn
        · rw [countActive_eq_countP, List.countP_map]
          rw [countActive_eq_countP] at hc
          refine le_trans (List.countP_mono_left ?_) hc
          intro q _ hfq
          by_cases hq : (q.name == name) = true
          · simp [Function.comp, hq] at hfq
          · simpa [Function.comp, hq] using hfq
      · rw [if_neg hl]
        constructor
        · rw [List.map_append, List.nodup_append]
          refine ⟨hn, by simp, ?_⟩
          intro a ha
          have hnone : lookupProfile store name = none := by
            cases hfind : lookupProfile store name
            · rfl
            · rw [hfind] at hl
              simp at hl
          have hall := List.find?_eq_none.mp hnone
          obtain ⟨q, hqmem, hqa⟩ := List.mem_map.mp ha
          intro hb
          simp at hb
          have := hall q hqmem
          apply this
          rw [hqa, hb]
          exact beq_self_eq_true name
        · rw [countActive_eq_countP, List.countP_append]
          rw [countActive_eq_countP] at hc
          simpa using hc
  | deleteOp name =>
      constructor
      · exact hn.sublist ((List.filter_sublist store).map _)
      · rw [countActive_eq_countP]
        rw [countActive_eq_countP] at hc
        exact le_trans ((List.filter_sublist store).countP_le _) hc
  | activateOp name =>
      show ((if (lookupProfile store name).isSome then
          store.map (fun p => { p with is_active := p.name == name })
        else store).map (fun p => p.name)).Nodup ∧
        countActive (if (lookupProfile store name).isSome then
          store.map (fun p => { p with is_active := p.name == name })
        else store) ≤ 1
      by_cases hl : (lookupProfile store name).isSome
      · rw [if_pos hl]
        constructor
        · rw [List.map_map]
          exact hn
        · rw [countActive_eq_countP, List.countP_map]
          exact countP_name_le_one store name hn
      · rw [if_neg hl]
        exact ⟨hn, hc⟩

/-- Every store reachable from the given one through manager mutations keeps
distinct names and at most one active profile. -/
theorem foldl_applyMgrOp_inv (ops : List MgrOp) (store : List Profile)
    (hn : (store.map (fun p => p.name)).Nodup)
    (hc : countActive store ≤ 1) :
    ((ops.foldl applyMgrOp store).map (fun p => p.name)).Nodup ∧
      countActive (ops.foldl applyMgrOp store) ≤ 1 := by
  induction ops generalizing store with
  | nil => exact ⟨hn, hc⟩
  | cons op rest ih =>
      rw [List.foldl_cons]
      obtain ⟨hn1, hc1⟩ := applyMgrOp_inv store op hn hc
      exact ih _ hn1 hc1

/-- Claim C6: after a successful `activate_profile(name)`, every profile in
the store has its `is_active` flag equal to whether its name is `name`
(so the named profile is active and all the others are not); and in every
store reachable from the empty store through the manager's mutations, at
most one profile is active. -/
theorem activate_profile_unique_active :
    (∀ (memory disk : List Profile) (wsValid : String → Bool)
      (name : String),
      (activateProfile memory disk wsValid name).err = none →
        (activateProfile memory disk wsValid name).memory =
          memory.map (fun p => { p with is_active := p.name == name })) ∧
    (∀ ops : List MgrOp, countActive (ops.foldl applyMgrOp []) ≤ 1) := by
  constructor
  · intro memory disk wsValid name herr
    unfold activateProfile at herr ⊢
    cases hl : lookupProfile memory name with
    | none =>
        rw [hl] at herr
        simp at herr
    | some prof =>
        rw [hl] at herr
        by_cases hw : wsValid prof.workspace_dir = true
        · simp [hw]
        · simp [hw] at herr
  · intro ops
    exact (foldl_applyMgrOp_inv ops [] (by simp) (by simp [countActive])).2

/-- Witness for C6 at a concrete input: activating `B` in a two-profile
store marks exactly `B` active, and a concrete mutation sequence keeps at
most one profile active. -/
theorem activate_profile_unique_active_witness :
    (activateProfile [exProfileA, exProfileB] [] wsAlwaysValid
        "B").memory =
      [exProfileA, { exProfileB with is_active := true }] ∧
    countActive ([MgrOp.createOp "A" exCreds "github" "/ws/A",
      MgrOp.activateOp "A", MgrOp.createOp "B" exCredsB "gitlab" "/ws/B",
      MgrOp.activateOp "B"].foldl applyMgrOp []) ≤ 1 := by
  constructor
  · exact (activate_profile_unique_active.1 [exProfileA, exProfileB] []
      wsAlwaysValid "B" (by decide)).trans (by decide)
  · exact activate_profile_unique_active.2 [MgrOp.createOp "A" exCreds
      "github" "/ws/A", MgrOp.activateOp "A", MgrOp.createOp "B" exCredsB
      "gitlab" "/ws/B", MgrOp.activateOp "B"]

/-! ## C10 — failed activation leaves the persisted store untouched -/

/-- Claim C10: when `activate_profile(name)` fails because the workspace
directory does not validate, the persisted store is left exactly as it was,
an error is raised, and the in-memory `is_active` flags have nevertheless
already been reassigned. -/
theorem activate_profile_failure_keeps_disk (memory disk : List Profile)
    (wsValid : String → Bool) (name : String) (p : Profile)
    (h : lookupProfile memory name = some p)
    (hw : wsValid p.workspace_dir = false) :
    (activateProfile memory disk wsValid name).disk = disk ∧
    (activateProfile memory disk wsValid name).err.isSome = true ∧
    (activateProfile memory disk wsValid name).memory =
      memory.map (fun q => { q with is_active := q.name == name }) := by
  unfold activateProfile
  rw [h]
  simp [hw]

/-- Witness for C10 at a concrete input. -/
theorem activate_profile_failure_keeps_disk_witness :
    (activateProfile [exProfileA] [exProfileA] wsNeverValid
        "A").disk = [exProfileA] ∧
    (activateProfile [exProfileA] [exProfileA] wsNeverValid
        "A").err.isSome = true ∧
    (activateProfile [exProfileA] [exProfileA] wsNeverValid
        "A").memory = [{ exProfileA with is_active := true }] := by
  have h := activate_profile_failure_keeps_disk [exProfileA] [exProfileA]
    wsNeverValid "A" exProfileA (by decide) rfl
  exact ⟨h.1, h.2.1, h.2.2.trans (by decide)⟩

/-! ## C7 — validate_profile as a drift detector -/

/-- Counterexample to claim C7: a workspace config whose `user.email` and
`user.name` both equal the stored credentials still makes
`validate_profile` return false, because the source additionally compares
`github.user` against the username. -/
theorem validate_profile_match_not_sufficient_cex :
    validateProfile [exProfileA] keyAlwaysOnDisk wsAlwaysValid
        readCfgDrift "A" = some false ∧
    exCfgDrift.userEmail = exCreds.email ∧
    exCfgDrift.userName = exCreds.username := by
  refine ⟨rfl, rfl, rfl⟩

/-- Claim C7 as amended: for a stored profile with an SSH key whose
workspace config is readable, `validate_profile(name)` returns true exactly
when the key files exist, the workspace validates, and the on-disk
`user.email`, `user.name` AND `github.user` values all match the stored
credentials (so any drift of email or name makes it return false, but a
matching email and name alone are not sufficient). -/
theorem validate_profile_true_iff (store : List Profile)
    (kE : SSHKey → Bool) (wsV : String → Bool)
    (readCfg : String → Except PyError WorkspaceGitCfg) (name : String)
    (p : Profile) (k : SSHKey) (cfg : WorkspaceGitCfg)
    (h : lookupProfile store name = some p)
    (hk : p.credentials.ssh_key = some k)
    (hr : readCfg p.workspace_dir = .ok cfg) :
    validateProfile store kE wsV readCfg name = some true ↔
      (kE k = true ∧ wsV p.workspace_dir = true ∧
       cfg.userEmail = p.credentials.email ∧
       cfg.userName = p.credentials.username ∧
       cfg.githubUser = p.credentials.username) := by
  unfold validateProfile
  rw [h]
  dsimp only
  rw [hk]
  dsimp only
  rw [hr]
  by_cases h1 : kE k = true <;>
    by_cases h2 : wsV p.workspace_dir = true <;>
      by_cases e1 : cfg.userEmail = p.credentials.email <;>
        by_cases e2 : cfg.userName = p.credentials.username <;>
          by_cases e3 : cfg.githubUser = p.credentials.username <;>
            simp [h1, h2, e1, e2, e3]

/-- Witness for C7 at a concrete input: a fully matching config validates. -/
theorem validate_profile_true_iff_witness :
    validateProfile [exProfileA] keyAlwaysOnDisk wsAlwaysValid
        readCfgGood "A" = some true := by
  exact (validate_profile_true_iff [exProfileA] keyAlwaysOnDisk
    wsAlwaysValid readCfgGood "A" exProfileA exKey exCfgGood
    rfl rfl rfl).mpr ⟨rfl, rfl, rfl, rfl, rfl⟩

/-! ## C5 — SSH key permission invariant -/

/-- Claim C5: after each of the three key-pair transitions — generation,
validation of an existing pair, and permission fixing — the private key file
mode is exactly `0o600` and the public key file mode is exactly `0o644`, for
every supported key type. -/
theorem ssh_key_modes_invariant (kt : KeyType) (umaskPriv umaskPub : Nat)
    (fs : KeyPairFS) (contentOk : Bool) :
    ((generateKeyFS kt umaskPriv umaskPub).privMode = 0o600 ∧
      (generateKeyFS kt umaskPriv umaskPub).pubMode = 0o644) ∧
    (fs.privExists = true → fs.pubExists = true →
      ((validateKeyFS fs contentOk).1.privMode = 0o600 ∧
       (validateKeyFS fs contentOk).1.pubMode = 0o644)) ∧
    ((fixKeyPermissionsFS fs).2 = true →
      ((fixKeyPermissionsFS fs).1.privMode = 0o600 ∧
       (fixKeyPermissionsFS fs).1.pubMode = 0o644)) := by
  refine ⟨⟨rfl, rfl⟩, ?_, ?_⟩
  · intro h1 h2
    unfold validateKeyFS
    rw [h1, h2]
    by_cases m1 : fs.privMode = 0o600 <;>
      by_cases m2 : fs.pubMode = 0o644 <;>
        simp [chmodPriv, chmodPub, m1, m2]
  · intro hok
    unfold fixKeyPermissionsFS at hok ⊢
    by_cases p1 : fs.privExists = true <;>
      by_cases p2 : fs.pubExists = true <;>
        simp [chmodPriv, chmodPub, p1, p2] at hok ⊢

/-- Witness for C5 at a concrete input: a world-readable key pair ends up
with modes `0o600` and `0o644` under each transition. -/
theorem ssh_key_modes_invariant_witness :
    ((generateKeyFS KeyType.ed25519 0o644 0o644).privMode = 0o600 ∧
      (generateKeyFS KeyType.ed25519 0o644 0o644).pubMode = 0o644) ∧
    ((validateKeyFS exLooseKeyFS true).1.privMode = 0o600 ∧
      (validateKeyFS exLooseKeyFS true).1.pubMode = 0o644) ∧
    ((fixKeyPermissionsFS exLooseKeyFS).1.privMode = 0o600 ∧
      (fixKeyPermissionsFS exLooseKeyFS).1.pubMode = 0o644) := by
  refine ⟨(ssh_key_modes_invariant KeyType.ed25519 0o644 0o644 exLooseKeyFS
    true).1, (ssh_key_modes_invariant KeyType.ed25519 0o644 0o644
    exLooseKeyFS true).2.1 rfl rfl, (ssh_key_modes_invariant KeyType.ed25519
    0o644 0o644 exLooseKeyFS true).2.2 rfl⟩

/-! ## C1 — cleanup without a backup -/

/-- Counterexample to claim C1: on a system with a non-empty global
gitconfig, SSH material and a GitPlex data directory, a direct call to
`clean_existing_configs()` — the function has no skip flag a caller could
set — deletes the gitconfig, the SSH keys and the whole `~/.gitplex`
directory, and afterwards no backup directory containing a gitconfig copy
exists anywhere (only the SSH config received a `.bak` sibling copy). -/
theorem clean_existing_configs_backupless_cex :
    cleanExistingConfigs exSystem =
      { gitconfig := none, sshDirExists := true, sshConfig := none,
        sshConfigBak := some "Host github.com\n", sshKeys := [],
        gpgSecretKeys := [("BBBB2222", false)], gitplexDirExists := false,
        backups := [] } ∧
    exSystem.gitconfig = some "[user]\n    email = a@b\n" ∧
    exSystem.backups = [] := by
  refine ⟨rfl, rfl, rfl⟩

/-- Claim C1 as amended: `clean_existing_configs` itself performs no backup
of the global gitconfig and accepts no skip flag; it deletes the gitconfig
unconditionally, never adds an entry to the backups directory (the result
list of backups is a sublist of the initial one), and — since the backups
live inside `~/.gitplex`, which the function removes — a run on a system
with a GitPlex data directory ends with no backups at all. -/
theorem clean_existing_configs_destroys_without_backup (s : SystemState) :
    (cleanExistingConfigs s).gitconfig = none ∧
    List.Sublist (cleanExistingConfigs s).backups s.backups ∧
    (s.gitplexDirExists = true → (cleanExistingConfigs s).backups = []) := by
  obtain ⟨g, sd, sc, sb, sk, gp, gd, bk⟩ := s
  unfold cleanExistingConfigs
  cases sd <;> cases gd <;> cases sc <;>
    simp [List.Sublist.refl, List.nil_sublist]

/-- Witness for C1 at a concrete input. -/
theorem clean_existing_configs_destroys_without_backup_witness :
    (cleanExistingConfigs exSystem).gitconfig = none ∧
    List.Sublist (cleanExistingConfigs exSystem).backups exSystem.backups ∧
    (cleanExistingConfigs exSystem).backups = [] := by
  refine ⟨(clean_existing_configs_destroys_without_backup exSystem).1,
    (clean_existing_configs_destroys_without_backup exSystem).2.1,
    (clean_existing_configs_destroys_without_backup exSystem).2.2 rfl⟩

end GitPlex
